import Mathlib

/-!
# Shallow embedding of `instanceManager.js` (waapi)

This file embeds the Instance Lifecycle Manager of the repository:
the in-memory Registry (`instances` JS `Map`), the QR map (`qrCodes`),
`createInstance`, `resetInstance`, the operation queue (`enqueue` /
`processQueue`), `removeFolderWithRetries`, `canCreateInstance`,
`getStatus` and `getInfo`, together with the client-event handlers that
`createInstance` registers (`qr`, `ready`, `authenticated`,
`disconnected`, `auth_failure`).

JS `Map`s are embedded as association lists with the usual `get` /
`set` / `delete` / `has` operations (JS `Map` keys are unique, so
`delete` removing every binding of a key agrees with `Map.delete` on
every reachable state).  External effects (the whatsapp-web.js client,
the filesystem, `pkill`, the status-projection database) are embedded
through explicit oracles / payloads; fallible JS code is embedded with
`Except`, and a JS `try { ... } catch (e) {}` becomes an explicit match
that discards the error.
-/

set_option autoImplicit false

namespace Waapi

universe u

/-! ## JS `Map` as an association list -/

/-- `Map.get(k)`: first binding of `k`, if any. -/
def mapGet {α : Type u} (m : List (String × α)) (k : String) : Option α :=
  match m with
  | [] => none
  | (k', v) :: rest => if k' = k then some v else mapGet rest k

/-- `Map.set(k, v)`: overwrite the binding of `k` in place, else append. -/
def mapSet {α : Type u} (m : List (String × α)) (k : String) (v : α) :
    List (String × α) :=
  match m with
  | [] => [(k, v)]
  | (k', v') :: rest =>
      if k' = k then (k, v) :: rest else (k', v') :: mapSet rest k v

/-- `Map.delete(k)`: remove the binding of `k` (keys are unique in a JS
`Map`, so removing every binding coincides with `Map.delete`). -/
def mapDelete {α : Type u} (m : List (String × α)) (k : String) :
    List (String × α) :=
  m.filter (fun p => p.1 != k)

/-- `Map.has(k)`. -/
def mapHas {α : Type u} (m : List (String × α)) (k : String) : Bool :=
  (mapGet m k).isSome

/-! ## The external client (boundary capability, shape from spec §6) -/

/-- The readable `info` field of the external client: present only once
authenticated, with identity fields `wid`, `number`, `pushname`,
`profile_pic` — and no other field (spec §6). -/
structure ClientInfo where
  wid : Option String
  number : Option String
  pushname : Option String
  profile_pic : Option String
deriving DecidableEq, Repr

/-- The empty JS object `{}` that `getInfo` returns for a missing
instance or missing `info`. -/
def emptyInfo : ClientInfo := ⟨none, none, none, none⟩

/-- The JS property access `info.status`.  `ClientInfo` has no
`status` property (spec §6 lists exactly `wid`, `number`, `pushname`,
`profile_pic`), so the access evaluates to `undefined` for every
info object. -/
def infoStatus (_ : ClientInfo) : Option String := none

/-- One live handle from `new Client(...)`.  `handleId` distinguishes
distinct JS object identities; `isInitializing` is the flag the code
adds to the client; `info` is the library-owned field that appears
once the session is authenticated. -/
structure Client where
  handleId : Nat
  isInitializing : Bool
  info : Option ClientInfo
deriving DecidableEq, Repr

/-! ## Manager state -/

/-- The module-level mutable state of `instanceManager.js`: the
Registry `instances`, the QR map `qrCodes`, plus the history of
`updateInstanceStatusInDb` calls (most recent first) standing for the
external status-projection store. -/
structure ManagerState where
  instances : List (String × Client)
  qrCodes : List (String × String)
  db : List (String × String)
deriving DecidableEq, Repr

/-- The state with both maps empty and no status updates. -/
def initialState : ManagerState := ⟨[], [], []⟩

/-! ## `createInstance` -/

/-- What a call to `createInstance` leaves behind: the new module
state, the returned client, whether `client.initialize()` was started,
and the synchronous exception propagated to the caller, if any. -/
structure CreateResult where
  state : ManagerState
  client : Client
  initCalled : Bool
  thrown : Option String
deriving DecidableEq, Repr

/-- `createInstance(id)` (lines 154–235), synchronous path.  If the id
is registered, it returns the registered handle without constructing a
client or starting initialization.  Otherwise it constructs a fresh
client (`fresh` supplies the new object's identity; a new client has
no `info`), sets `isInitializing`, registers the event listeners
(embedded separately as `handleEvent`), and awaits
`client.initialize()`.  When the latter throws (`initThrows`), the
catch block records status `error`, deletes the id from `instances`
and from `qrCodes`, and swallows the exception.  After the try/catch
the code unconditionally runs `instances.set(id, client)` and returns
the client. -/
def createInstance (s : ManagerState) (id : String) (fresh : Client)
    (initThrows : Bool) : CreateResult :=
  match mapGet s.instances id with
  | some c => { state := s, client := c, initCalled := false, thrown := none }
  | none =>
      let client : Client := { fresh with isInitializing := true, info := none }
      let s1 : ManagerState :=
        if initThrows then
          { s with instances := mapDelete s.instances id,
                   qrCodes := mapDelete s.qrCodes id,
                   db := (id, "error") :: s.db }
        else s
      { state := { s1 with instances := mapSet s1.instances id client },
        client := client,
        initCalled := true,
        thrown := none }

/-! ## Client events (the listeners registered by `createInstance`) -/

/-- An event emitted by the external client for a given instance.  The
library sets `client.info` before emitting `ready`, so the `ready`
event carries the info payload the library installed. -/
inductive ClientEvent where
  | qr (challenge : String)
  | ready (info : ClientInfo)
  | authenticated
  | disconnected (reason : String)
  | authFailure (msg : String)
deriving DecidableEq, Repr

/-- The event listeners of `createInstance` (lines 187–222): `qr`
stores the challenge and records status `qr`; `ready` clears
`isInitializing` (the library having installed `client.info`) and
records status `ready`; `authenticated` records status
`authenticated`; `disconnected` and `auth_failure` record their status
and delete the id from both maps. -/
def handleEvent (s : ManagerState) (id : String) (e : ClientEvent) :
    ManagerState :=
  match e with
  | .qr challenge =>
      { s with qrCodes := mapSet s.qrCodes id challenge,
               db := (id, "qr") :: s.db }
  | .ready info =>
      let instances' :=
        match mapGet s.instances id with
        | some c =>
            mapSet s.instances id { c with isInitializing := false, info := some info }
        | none => s.instances
      { s with instances := instances', db := (id, "ready") :: s.db }
  | .authenticated => { s with db := (id, "authenticated") :: s.db }
  | .disconnected _ =>
      { s with instances := mapDelete s.instances id,
               qrCodes := mapDelete s.qrCodes id,
               db := (id, "disconnected") :: s.db }
  | .authFailure _ =>
      { s with instances := mapDelete s.instances id,
               qrCodes := mapDelete s.qrCodes id,
               db := (id, "auth_failure") :: s.db }

/-! ## Reads -/

/-- `getStatus(id)` (lines 304–307): `client ? client.info?.status : null`. -/
def getStatus (s : ManagerState) (id : String) : Option String :=
  match mapGet s.instances id with
  | none => none
  | some c => c.info.bind infoStatus

/-- `getInfo(id)` (lines 310–313): `client?.info || {}`. -/
def getInfo (s : ManagerState) (id : String) : ClientInfo :=
  match mapGet s.instances id with
  | none => emptyInfo
  | some c => c.info.getD emptyInfo

/-- `getQRCode(id)`. -/
def getQRCode (s : ManagerState) (id : String) : Option String :=
  mapGet s.qrCodes id

/-! ## Operation queue (`enqueue` / `processQueue`, lines 128–149)

The drain loop shifts the oldest entry, awaits its `fn`, settles the
caller's promise with the outcome, then awaits `delay(500)` before the
next entry.  An enqueued operation is represented by its duration and
its outcome; draining produces, per operation, the interval on the
event-loop timeline during which it ran and the outcome delivered to
its caller. -/

/-- The cooldown `delay(500)` between consecutive queue operations. -/
def cooldownMs : Nat := 500

/-- One enqueued operation, given by how long its `fn()` runs and
whether the `await fn()` fulfills (`ok = true`, the caller's promise
is resolved) or throws (`ok = false`, the promise is rejected). -/
structure OpSpec where
  duration : Nat
  ok : Bool
deriving DecidableEq, Repr

/-- The record of one drained operation: when it started, when it
completed (its caller's promise settling), and the outcome delivered. -/
structure OpTrace where
  startTime : Nat
  endTime : Nat
  ok : Bool
deriving DecidableEq, Repr

/-- The body of the drain loop from time `t`: run the head operation,
settle its caller, wait `cooldownMs`, continue with the rest. -/
def drainFrom (t : Nat) : List OpSpec → List OpTrace
  | [] => []
  | op :: rest =>
      { startTime := t, endTime := t + op.duration, ok := op.ok } ::
        drainFrom (t + op.duration + cooldownMs) rest

/-- The module-level queue state: the pending entries (oldest first)
and the `queueRunning` re-entrancy guard. -/
structure QueueState where
  queue : List OpSpec
  queueRunning : Bool
deriving DecidableEq, Repr

/-- `processQueue()` at time `t`: if a drain loop is already running
it returns at once (no entry is touched, nothing is drained);
otherwise it sets the guard, drains every entry in FIFO order and
clears the guard. -/
def processQueue (t : Nat) (s : QueueState) : QueueState × List OpTrace :=
  if s.queueRunning then (s, [])
  else ({ queue := [], queueRunning := false }, drainFrom t s.queue)

/-! ## `removeFolderWithRetries` (lines 257–273)

Each loop iteration checks `fs.existsSync(folderPath)` and, when the
folder exists, calls `fs.rmSync(folderPath, { recursive: true,
force: true })`, which may throw (a lock may still be held).  The
per-iteration behaviour of the filesystem is an oracle. -/

/-- What iteration `i` of the removal loop observes: the folder is
absent (`existsSync` false, no `rmSync` call, return `true`),
`rmSync` succeeds (return `true`), or `rmSync` throws. -/
inductive AttemptOutcome where
  | missing
  | removed
  | throws
deriving DecidableEq, Repr

/-- The full record of one `removeFolderWithRetries` call: the value
returned, how many loop iterations ran, how many `rmSync` calls were
made, how many `delay(delayMs)` sleeps happened and the total
milliseconds slept. -/
structure RemoveTrace where
  returned : Bool
  attempts : Nat
  rmCalls : Nat
  waits : Nat
  waitedMs : Nat
deriving DecidableEq, Repr

/-- The `while (attempts < maxRetries)` loop, entered with counter
`i` (the JS `attempts` variable), having already made `rm` rmSync
calls and slept `w` times for `ms` total milliseconds.  On a throw the
counter is incremented; if it reached `maxRetries` the function logs
and returns `false`, otherwise it sleeps `delayMs` and iterates.  The
fallthrough `return false` after the loop is the `¬(i < maxRetries)`
branch. -/
def removeLoop (beh : Nat → AttemptOutcome) (maxRetries delayMs i rm w ms : Nat) :
    RemoveTrace :=
  if _h : i < maxRetries then
    match beh i with
    | .missing => ⟨true, i + 1, rm, w, ms⟩
    | .removed => ⟨true, i + 1, rm + 1, w, ms⟩
    | .throws =>
        if h2 : i + 1 ≥ maxRetries then ⟨false, i + 1, rm + 1, w, ms⟩
        else removeLoop beh maxRetries delayMs (i + 1) (rm + 1) (w + 1) (ms + delayMs)
  else ⟨false, i, rm, w, ms⟩
termination_by maxRetries - i
decreasing_by omega

/-- `removeFolderWithRetries(folderPath, maxRetries, delayMs)` with
the filesystem behaviour `beh`; the source defaults are
`maxRetries = 5`, `delayMs = 1000`. -/
def removeFolderWithRetries (beh : Nat → AttemptOutcome)
    (maxRetries delayMs : Nat) : RemoveTrace :=
  removeLoop beh maxRetries delayMs 0 0 0 0


/-! ## Filesystem layout (lines 44–48) and `resetInstance` (lines 237–255)

`SESSIONS_PATH` is the session-data root; `LocalAuth` with
`dataPath: SESSIONS_PATH` keeps instance `id`'s credentials in the
subdirectory `session-<id>` of that root; the Chrome profile caches
live under `CHROME_PROFILES_PATH = SESSIONS_PATH/_chrome_profiles`,
one subdirectory per id.  The on-disk state is embedded as the list
of existing directory paths. -/

/-- `SESSIONS_PATH = path.join(APP_ROOT, '.wwebjs_auth')`, relative to
the application root. -/
def SESSIONS_PATH : String := ".wwebjs_auth"

/-- `CHROME_PROFILES_PATH = path.join(SESSIONS_PATH, '_chrome_profiles')`. -/
def CHROME_PROFILES_PATH : String := SESSIONS_PATH ++ "/_chrome_profiles"

/-- The per-id credential directory that `LocalAuth({clientId: id,
dataPath: SESSIONS_PATH})` maintains under the session-data root. -/
def sessionDirFor (id : String) : String := SESSIONS_PATH ++ "/session-" ++ id

/-- `profilePath = path.join(CHROME_PROFILES_PATH, instanceId)`
(line 248). -/
def profileDirFor (id : String) : String := CHROME_PROFILES_PATH ++ "/" ++ id

/-- `await client.destroy()`: the external teardown, which may throw. -/
def destroyResult (throws : Bool) : Except String Unit :=
  if throws then Except.error "destroy failed" else Except.ok ()

/-- ``execSync(`pkill -f ...`)``: the stray-process kill, which may throw. -/
def pkillResult (throws : Bool) : Except String Unit :=
  if throws then Except.error "pkill failed" else Except.ok ()

/-- What the enqueued body of `resetInstance` leaves behind: the new
module state, the new on-disk state, and how the operation settles
the caller's promise (`Except.ok ()` embeds fulfilling with
`undefined`; `Except.error` would embed rejecting). -/
structure ResetOutcome where
  state : ManagerState
  disk : List String
  settled : Except String Unit
deriving Repr

/-- The function `resetInstance(instanceId)` enqueues (lines 238–254):
if the id is registered, `try { await client.destroy() } catch (e) {}`
then `instances.delete(instanceId)`; then `qrCodes.delete(instanceId)`;
then `await removeFolderWithRetries(profilePath)` with the source
defaults `maxRetries = 5`, `delayMs = 1000` (when the removal returns
`true` the profile directory is gone, when it returns `false` the
directory is left as the filesystem had it); then
`try { execSync(pkill ...) } catch (e) {}`.  `removeBeh` is the
filesystem's behaviour for the removal attempts; `destroyThrows` and
`pkillThrows` are the oracles for the two best-effort external calls. -/
def resetOp (s : ManagerState) (disk : List String) (id : String)
    (destroyThrows : Bool) (removeBeh : Nat → AttemptOutcome)
    (pkillThrows : Bool) : ResetOutcome :=
  let s1 : ManagerState :=
    match mapGet s.instances id with
    | some _ =>
        match destroyResult destroyThrows with
        | Except.ok _ => { s with instances := mapDelete s.instances id }
        | Except.error _ => { s with instances := mapDelete s.instances id }
    | none => s
  let s2 : ManagerState := { s1 with qrCodes := mapDelete s1.qrCodes id }
  let removed := removeFolderWithRetries removeBeh 5 1000
  let disk2 := if removed.returned then disk.filter (fun p => p != profileDirFor id) else disk
  let _ :=
    match pkillResult pkillThrows with
    | Except.ok _ => ()
    | Except.error _ => ()
  { state := s2, disk := disk2, settled := Except.ok () }

/-! ## `canCreateInstance` (lines 89–98)

`os.cpuUsage` reports CPU utilization as a fraction in `[0, 1]`; the
code compares `cpuPercent * 100` against `maxCpu` and
`(total - free) / total * 100` against `maxRamPercent` and admits when
neither exceeds its threshold.  Percentages are embedded as exact
rationals. -/

/-- `canCreateInstance(maxCpu = 80, maxRamPercent = 80)` resolving
with `!(cpuPercent * 100 > maxCpu || usedRamPercent > maxRamPercent)`
for the sampled CPU fraction and memory figures. -/
def canCreateInstance (cpuFraction totalMem freeMem maxCpu maxRamPercent : ℚ) :
    Bool :=
  let usedRamPercent : ℚ := (totalMem - freeMem) / totalMem * 100
  !(decide (cpuFraction * 100 > maxCpu) || decide (usedRamPercent > maxRamPercent))

/-! ## Concrete fixtures

Concrete clients, states and scenarios used by the verification
scenarios and their evaluations. -/

/-- A fresh client object. -/
def clientA : Client := ⟨1, false, none⟩

/-- Another client object, distinct from `clientA`. -/
def clientB : Client := ⟨2, false, none⟩

/-- The identity fields the library installs for the `alice` session. -/
def aliceInfo : ClientInfo :=
  ⟨some "wid-alice", some "15550100", some "Alice", some "pic-url"⟩

/-- A registry state holding a single handle for `alice`. -/
def sAliceRegistered : ManagerState := ⟨[("alice", clientA)], [], []⟩

/-- State after `createInstance("alice")` from the empty state with no
saved session, before any client event. -/
def sCreatedAlice : ManagerState :=
  (createInstance initialState "alice" clientA false).state

/-- State immediately after the client emits `qr` for `alice`. -/
def sQrAlice : ManagerState :=
  handleEvent sCreatedAlice "alice" (ClientEvent.qr "QR1")

/-- State after the client then authenticates and emits `ready` for
`alice`, having installed `aliceInfo` as `client.info`. -/
def sReadyAlice : ManagerState :=
  handleEvent sQrAlice "alice" (ClientEvent.ready aliceInfo)

/-! ## Helper lemmas -/

theorem mapGet_mapDelete {α : Type u} (m : List (String × α)) (k : String) :
    mapGet (mapDelete m k) k = none := by
  induction m with
  | nil => rfl
  | cons p rest ih =>
      simp only [mapDelete, List.filter_cons] at ih ⊢
      by_cases h : p.1 = k
      · simp only [h, bne_self_eq_false]
        exact ih
      · simp only [bne_iff_ne, ne_eq, h, not_false_eq_true, if_true, mapGet, if_neg h]
        exact ih

theorem mapGet_mapSet {α : Type u} (m : List (String × α)) (k : String) (v : α) :
    mapGet (mapSet m k v) k = some v := by
  induction m with
  | nil => simp [mapSet, mapGet]
  | cons p rest ih =>
      by_cases h : p.1 = k
      · simp [mapSet, h, mapGet]
      · simpa [mapSet, h, mapGet] using ih

theorem drainFrom_ok_map (t : Nat) (ops : List OpSpec) :
    (drainFrom t ops).map OpTrace.ok = ops.map OpSpec.ok := by
  induction ops generalizing t with
  | nil => rfl
  | cons op rest ih => simp [drainFrom, ih]

theorem drainFrom_head_start (t : Nat) (ops : List OpSpec) (a : OpTrace)
    (h : (drainFrom t ops).get? 0 = some a) : a.startTime = t := by
  cases ops with
  | nil => simp [drainFrom] at h
  | cons op rest =>
      simp [drainFrom] at h
      rw [← h]

theorem drainFrom_adjacent (ops : List OpSpec) :
    ∀ (t i : Nat) (a b : OpTrace),
      (drainFrom t ops).get? i = some a →
      (drainFrom t ops).get? (i + 1) = some b →
      b.startTime = a.endTime + cooldownMs := by
  induction ops with
  | nil => intro t i a b ha _; simp [drainFrom] at ha
  | cons op rest ih =>
      intro t i a b ha hb
      cases i with
      | zero =>
          simp only [drainFrom, List.get?_cons_zero, List.get?_cons_succ,
            Option.some.injEq] at ha hb
          have hs := drainFrom_head_start _ _ _ hb
          rw [hs, ← ha]
      | succ j =>
          simp only [drainFrom, List.get?_cons_succ] at ha hb
          exact ih _ _ _ _ ha hb

theorem canCreateInstance_eq_true_iff
    (cpuFraction totalMem freeMem maxCpu maxRamPercent : ℚ) :
    canCreateInstance cpuFraction totalMem freeMem maxCpu maxRamPercent = true ↔
      cpuFraction * 100 ≤ maxCpu ∧
        (totalMem - freeMem) / totalMem * 100 ≤ maxRamPercent := by
  simp [canCreateInstance, not_lt]

theorem removeLoop_all_throws (beh : Nat → AttemptOutcome) (R dMs : Nat) :
    ∀ (j i rm w ms : Nat), i + j = R → 0 < j →
      (∀ t, t < R → beh t = AttemptOutcome.throws) →
      removeLoop beh R dMs i rm w ms =
        ⟨false, R, rm + j, w + (j - 1), ms + (j - 1) * dMs⟩ := by
  intro j
  induction j with
  | zero => intro _ _ _ _ _ h0; omega
  | succ n ih =>
      intro i rm w ms hiR _ hbeh
      have hi : i < R := by omega
      rw [removeLoop, dif_pos hi, hbeh i hi]
      by_cases hn : n = 0
      · subst hn
        rw [dif_pos (by omega : i + 1 ≥ R)]
        simp only [RemoveTrace.mk.injEq, Nat.add_sub_cancel, true_and, and_true]
        and_intros <;> omega
      · rw [dif_neg (by omega : ¬ i + 1 ≥ R)]
        rw [ih (i + 1) (rm + 1) (w + 1) (ms + dMs) (by omega) (by omega) hbeh]
        obtain ⟨m, rfl⟩ : ∃ m, n = m + 1 := ⟨n - 1, by omega⟩
        simp only [Nat.add_sub_cancel, RemoveTrace.mk.injEq, true_and, and_true]
        and_intros <;> first | omega | ring

theorem removeLoop_success (beh : Nat → AttemptOutcome) (R dMs : Nat)
    (i rm w ms : Nat) (hi : i < R) (hs : beh i ≠ AttemptOutcome.throws) :
    removeLoop beh R dMs i rm w ms =
      ⟨true, i + 1, rm + (if beh i = AttemptOutcome.removed then 1 else 0), w, ms⟩ := by
  rw [removeLoop, dif_pos hi]
  cases hb : beh i with
  | missing => simp [hb]
  | removed => simp [hb]
  | throws => exact absurd hb hs

theorem removeLoop_skip_throws (beh : Nat → AttemptOutcome) (R dMs : Nat) :
    ∀ (k i rm w ms : Nat), i + k < R →
      (∀ t, i ≤ t → t < i + k → beh t = AttemptOutcome.throws) →
      removeLoop beh R dMs i rm w ms =
        removeLoop beh R dMs (i + k) (rm + k) (w + k) (ms + k * dMs) := by
  intro k
  induction k with
  | zero => intro i rm w ms _ _; simp
  | succ n ih =>
      intro i rm w ms hlt hbeh
      have hi : i < R := by omega
      have hit : beh i = AttemptOutcome.throws := hbeh i (by omega) (by omega)
      rw [removeLoop, dif_pos hi, hit, dif_neg (by omega : ¬ i + 1 ≥ R)]
      rw [ih (i + 1) (rm + 1) (w + 1) (ms + dMs) (by omega)
        (fun t ht1 ht2 => hbeh t (by omega) (by omega))]
      have e1 : i + 1 + n = i + (n + 1) := by omega
      have e2 : rm + 1 + n = rm + (n + 1) := by omega
      have e3 : w + 1 + n = w + (n + 1) := by omega
      have e4 : ms + dMs + n * dMs = ms + (n + 1) * dMs := by ring
      rw [e1, e2, e3, e4]

/-! ## Claims -/

/-- Claim C1 (code behaviour at the failing input): when
`client.initialize()` throws during `createInstance("alice")` on the
empty state, the call propagates no synchronous exception, records
status `error`, and leaves `alice` absent from `qrCodes` — but,
contrary to the claim, `alice` is still registered in `instances`
when the call returns: the unconditional `instances.set(id, client)`
after the try/catch re-adds the handle the catch block had deleted. -/
theorem c1_init_throw_leaves_id_registered :
    (createInstance initialState "alice" clientA true).thrown = none ∧
    (createInstance initialState "alice" clientA true).initCalled = true ∧
    mapGet (createInstance initialState "alice" clientA true).state.qrCodes
      "alice" = none ∧
    (createInstance initialState "alice" clientA true).state.db =
      [("alice", "error")] ∧
    mapGet (createInstance initialState "alice" clientA true).state.instances
      "alice" = some (createInstance initialState "alice" clientA true).client := by
  refine ⟨rfl, rfl, rfl, rfl, rfl⟩

/-- Claim C2 counterexample: resetting `alice` — with every external
step succeeding, in particular the bounded-retry removal — removes the
Chrome profile directory but leaves the per-id credential session
directory `.wwebjs_auth/session-alice` on disk, so reset does not
remove the session-data subdirectory the claim requires. -/
theorem c2_session_dir_survives_reset :
    sessionDirFor "alice" ∈
      (resetOp ⟨[("alice", clientA)], [("alice", "QR1")], []⟩
        [sessionDirFor "alice", profileDirFor "alice"] "alice"
        false (fun _ => AttemptOutcome.removed) false).disk ∧
    profileDirFor "alice" ∉
      (resetOp ⟨[("alice", clientA)], [("alice", "QR1")], []⟩
        [sessionDirFor "alice", profileDirFor "alice"] "alice"
        false (fun _ => AttemptOutcome.removed) false).disk := by
  have hr : removeFolderWithRetries (fun _ => AttemptOutcome.removed) 5 1000 =
      ⟨true, 1, 1, 0, 0⟩ :=
    removeLoop_success _ 5 1000 0 0 0 0 (by omega) (by simp)
  simp only [resetOp, hr]
  decide

/-- Claim C2 amended: `resetInstance(id)`'s queued operation removes,
via the bounded-retry removal, only the profile cache subdirectory
`CHROME_PROFILES_PATH/id`; every other path — in particular the per-id
credential directory under the session-data root — is left exactly as
it was on disk. -/
theorem c2_reset_removes_only_profile_dir
    (s : ManagerState) (disk : List String) (id : String)
    (destroyThrows : Bool) (removeBeh : Nat → AttemptOutcome)
    (pkillThrows : Bool) :
    ((removeFolderWithRetries removeBeh 5 1000).returned = true →
      profileDirFor id ∉
        (resetOp s disk id destroyThrows removeBeh pkillThrows).disk) ∧
    (∀ p, p ≠ profileDirFor id →
      (p ∈ (resetOp s disk id destroyThrows removeBeh pkillThrows).disk ↔
        p ∈ disk)) := by
  constructor
  · intro h
    simp [resetOp, h, List.mem_filter]
  · intro p hp
    by_cases h : (removeFolderWithRetries removeBeh 5 1000).returned <;>
      simp [resetOp, h, List.mem_filter, hp]

/-- Claim C2 amended, witness. -/
theorem c2_reset_removes_only_profile_dir_witness :
    profileDirFor "alice" ∉
      (resetOp ⟨[("alice", clientA)], [("alice", "QR1")], []⟩
        [sessionDirFor "alice", profileDirFor "alice"] "alice"
        false (fun _ => AttemptOutcome.removed) false).disk :=
  (c2_reset_removes_only_profile_dir _ _ _ _ _ _).1
    (by
      have h := removeLoop_success (fun _ => AttemptOutcome.removed)
        5 1000 0 0 0 0 (by omega) (by simp)
      show (removeLoop (fun _ => AttemptOutcome.removed) 5 1000 0 0 0 0).returned
        = true
      rw [h])

/-- Claim C3: a `createInstance(id)` while a handle for `id` is in the
Registry returns that registered handle, starts no initialization and
leaves the whole module state unchanged; and any `createInstance` on
an unregistered id registers exactly the handle it returns, so the
second call yields the handle the first call produced. -/
theorem c3_create_is_idempotent :
    (∀ (s : ManagerState) (id : String) (c fresh : Client)
        (initThrows : Bool),
        mapGet s.instances id = some c →
        createInstance s id fresh initThrows =
          { state := s, client := c, initCalled := false, thrown := none }) ∧
    (∀ (s : ManagerState) (id : String) (fresh : Client) (initThrows : Bool),
        mapGet s.instances id = none →
        mapGet (createInstance s id fresh initThrows).state.instances id =
          some (createInstance s id fresh initThrows).client) := by
  constructor
  · intro s id c fresh b h
    simp [createInstance, h]
  · intro s id fresh b h
    cases b <;> simp [createInstance, h, mapGet_mapSet]

/-- Claim C3, witness: creating `alice` again over a state that holds
`clientA` for `alice` returns `clientA` itself, does not initialize,
and leaves the state untouched. -/
theorem c3_create_is_idempotent_witness :
    createInstance sAliceRegistered "alice" clientB true =
      { state := sAliceRegistered, client := clientA,
        initCalled := false, thrown := none } :=
  c3_create_is_idempotent.1 sAliceRegistered "alice" clientA clientB true rfl

/-- Claim C4: draining preserves submission order and outcomes
(operation `i`'s delivered outcome is operation `i`'s own, for every
position), each operation's caller is settled before the next
operation starts with at least the 500 ms cooldown in between,
whatever the outcomes were; and a `processQueue` call while the drain
loop is running changes nothing and drains nothing, so at most one
drain loop runs at a time. -/
theorem c4_queue_fifo_with_cooldown :
    (∀ (t : Nat) (ops : List OpSpec),
        (drainFrom t ops).map OpTrace.ok = ops.map OpSpec.ok) ∧
    (∀ (t i : Nat) (ops : List OpSpec) (a b : OpTrace),
        (drainFrom t ops).get? i = some a →
        (drainFrom t ops).get? (i + 1) = some b →
        a.endTime < b.startTime ∧ a.endTime + cooldownMs ≤ b.startTime) ∧
    (∀ (t : Nat) (s : QueueState), s.queueRunning = true →
        processQueue t s = (s, [])) := by
  refine ⟨drainFrom_ok_map, ?_, ?_⟩
  · intro t i ops a b ha hb
    have h := drainFrom_adjacent ops t i a b ha hb
    rw [h]
    constructor
    · simp [cooldownMs]
    · exact le_refl _
  · intro t s h
    simp [processQueue, h]

/-- Claim C4, witness: in a two-operation drain starting at time 0
with durations 10 and 20, the first operation ends at 10 and the
second starts at 510, a full cooldown later. -/
theorem c4_queue_fifo_with_cooldown_witness :
    (10 : Nat) < 510 ∧ 10 + cooldownMs ≤ 510 :=
  c4_queue_fifo_with_cooldown.2.1 0 0 [⟨10, true⟩, ⟨20, false⟩]
    ⟨0, 10, true⟩ ⟨510, 530, false⟩ rfl rfl

/-- Claim C5: after `resetInstance(id)`'s queued operation runs, `id`
is absent from the Registry and from the QR map, for every starting
state (registered or not), every outcome of the external `destroy()`,
of the directory removal and of the process kill. -/
theorem c5_reset_clears_registry_and_qr
    (s : ManagerState) (disk : List String) (id : String)
    (destroyThrows : Bool) (removeBeh : Nat → AttemptOutcome)
    (pkillThrows : Bool) :
    mapGet (resetOp s disk id destroyThrows removeBeh pkillThrows).state.instances
      id = none ∧
    mapGet (resetOp s disk id destroyThrows removeBeh pkillThrows).state.qrCodes
      id = none := by
  unfold resetOp
  cases h : mapGet s.instances id <;> cases destroyThrows <;>
    simp [h, destroyResult, mapGet_mapDelete]

/-- Claim C6: `removeFolderWithRetries` makes at most `maxRetries`
attempts; when every attempt throws it makes exactly `maxRetries`
rmSync calls separated by `maxRetries - 1` sleeps of `delayMs` each
and returns `false` rather than throwing; when attempt `k` (0-based)
is the first that does not throw, it returns `true` right there after
`k + 1` iterations and `k` sleeps, with no further attempts. -/
theorem c6_remove_folder_bounded_retry :
    (∀ (beh : Nat → AttemptOutcome) (maxRetries delayMs : Nat),
        0 < maxRetries →
        (∀ t, t < maxRetries → beh t = AttemptOutcome.throws) →
        removeFolderWithRetries beh maxRetries delayMs =
          ⟨false, maxRetries, maxRetries, maxRetries - 1,
            (maxRetries - 1) * delayMs⟩) ∧
    (∀ (beh : Nat → AttemptOutcome) (maxRetries delayMs k : Nat),
        k < maxRetries →
        (∀ t, t < k → beh t = AttemptOutcome.throws) →
        beh k ≠ AttemptOutcome.throws →
        removeFolderWithRetries beh maxRetries delayMs =
          ⟨true, k + 1,
            k + (if beh k = AttemptOutcome.removed then 1 else 0),
            k, k * delayMs⟩) := by
  constructor
  · intro beh R dMs hR hbeh
    have h := removeLoop_all_throws beh R dMs R 0 0 0 0 (by omega) hR
      (fun t ht => hbeh t ht)
    simpa [removeFolderWithRetries] using h
  · intro beh R dMs k hk hpre hs
    have hskip := removeLoop_skip_throws beh R dMs k 0 0 0 0 (by omega)
      (fun t ht1 ht2 => hpre t (by omega))
    have hsucc := removeLoop_success beh R dMs k k k (k * dMs) hk hs
    simp only [removeFolderWithRetries]
    rw [hskip]
    simp only [Nat.zero_add]
    rw [hsucc]

/-- Claim C6, witness: with the default parameters and a folder whose
lock is never released, removal makes 5 attempts, sleeps 4 times for
1000 ms each and returns `false`. -/
theorem c6_remove_folder_bounded_retry_witness :
    removeFolderWithRetries (fun _ => AttemptOutcome.throws) 5 1000 =
      ⟨false, 5, 5, 4, 4000⟩ :=
  c6_remove_folder_bounded_retry.1 (fun _ => AttemptOutcome.throws) 5 1000
    (by omega) (fun t _ => rfl)

/-- Claim C7 (code behaviour at the failing input): in the
create-`alice` scenario the `qr` event stores the challenge and the
handlers record statuses `qr` and then `ready` in the status store,
and after `ready` `getInfo` carries the identity fields — but
`getStatus` reads `client.info?.status`, a property the client's
`info` object does not have, so it returns `undefined` both right
after `qr` (not `"qr"`) and after `ready` (not `"ready"`). -/
theorem c7_get_status_blind_to_lifecycle :
    mapGet sQrAlice.qrCodes "alice" = some "QR1" ∧
    ("alice", "qr") ∈ sQrAlice.db ∧
    getStatus sQrAlice "alice" = none ∧
    ("alice", "ready") ∈ sReadyAlice.db ∧
    getInfo sReadyAlice "alice" = aliceInfo ∧
    getStatus sReadyAlice "alice" = none := by
  decide

/-- Claim C8 counterexample: with thresholds 80/80, a sampled CPU
utilization of exactly 80% (and RAM at 50%) is admitted, although 80
is not under the threshold 80 — admission is non-strict, not strict. -/
theorem c8_boundary_cpu_admitted :
    canCreateInstance (4/5) 100 50 80 80 = true ∧
    ¬ ((4/5 : ℚ) * 100 < 80) := by
  constructor
  · rw [canCreateInstance_eq_true_iff]
    norm_num
  · norm_num

/-- Claim C8 amended: `canCreateInstance` returns true only if the
sampled CPU percentage is at most `maxCpu` and the RAM percentage
`(total - free) / total * 100` is at most `maxRamPercent` (values
equal to a threshold are admitted); in particular with thresholds
80/80 it returns false for CPU = 90%, RAM = 50%, and true for
CPU = 50%, RAM = 50%. -/
theorem c8_admission_thresholds :
    (∀ cpuFraction totalMem freeMem maxCpu maxRamPercent : ℚ,
        canCreateInstance cpuFraction totalMem freeMem maxCpu
          maxRamPercent = true →
        cpuFraction * 100 ≤ maxCpu ∧
          (totalMem - freeMem) / totalMem * 100 ≤ maxRamPercent) ∧
    canCreateInstance (9/10) 100 50 80 80 = false ∧
    canCreateInstance (1/2) 100 50 80 80 = true := by
  refine ⟨?_, ?_, ?_⟩
  · intro cpu total free maxCpu maxRam h
    exact (canCreateInstance_eq_true_iff cpu total free maxCpu maxRam).mp h
  · cases hb : canCreateInstance (9/10) 100 50 80 80 with
    | false => rfl
    | true =>
        exfalso
        have h := (canCreateInstance_eq_true_iff (9/10) 100 50 80 80).mp hb
        norm_num at h
  · rw [canCreateInstance_eq_true_iff]
    norm_num

/-- Claim C8 amended, witness: the only-if direction applied at
CPU = 50%, RAM = 50%, thresholds 80/80. -/
theorem c8_admission_thresholds_witness :
    (1/2 : ℚ) * 100 ≤ 80 ∧ ((100 : ℚ) - 50) / 100 * 100 ≤ 80 :=
  c8_admission_thresholds.1 (1/2) 100 50 80 80
    (by rw [canCreateInstance_eq_true_iff]; norm_num)

/-- Claim C9: whatever the starting state, whether `id` is registered,
and however the external `destroy()`, the directory removal attempts
and the process kill turn out, the enqueued body of
`resetInstance(id)` settles its caller's promise by fulfilling with
`undefined` (embedded as `Except.ok ()`), never rejecting — the caller
cannot distinguish success, a missing instance, or exhausted removal
retries. -/
theorem c9_reset_always_fulfills_with_undefined
    (s : ManagerState) (disk : List String) (id : String)
    (destroyThrows : Bool) (removeBeh : Nat → AttemptOutcome)
    (pkillThrows : Bool) :
    (resetOp s disk id destroyThrows removeBeh pkillThrows).settled =
      Except.ok () := rfl

/-- Claim C10: a folder absent at the first attempt makes
`removeFolderWithRetries` return `true` after that single iteration,
with no rmSync call, no retry and no sleep. -/
theorem c10_missing_folder_immediate_true
    (beh : Nat → AttemptOutcome) (maxRetries delayMs : Nat)
    (h0 : beh 0 = AttemptOutcome.missing) (hR : 0 < maxRetries) :
    removeFolderWithRetries beh maxRetries delayMs = ⟨true, 1, 0, 0, 0⟩ := by
  unfold removeFolderWithRetries
  rw [removeLoop, dif_pos hR, h0]

/-- Claim C10, witness. -/
theorem c10_missing_folder_immediate_true_witness :
    removeFolderWithRetries (fun _ => AttemptOutcome.missing) 5 1000 =
      ⟨true, 1, 0, 0, 0⟩ :=
  c10_missing_folder_immediate_true (fun _ => AttemptOutcome.missing) 5 1000
    rfl (by omega)

end Waapi
